import Mathlib

/-!
Shallow embedding of `src/scripts/quality_checker.py` (class
`HealthcareQualityChecker`).

Modelling choices:
* SQL dates are integer day numbers (only order and day differences matter).
* Money amounts are exact rationals (`ℚ`); the SQL `numeric` comparisons and
  `ROUND(x, 2)` are embedded as exact rational arithmetic.
* A table is a list of rows; each check's SQL query is embedded as the
  corresponding filter/map/group/sort over that list.
* `psycopg2` failures are embedded by oracles: a per-check flag for
  `execute_query` raising (`DataAccessError`), and a per-write flag for the
  audit `INSERT` raising.  `log_quality_issue` swallows its exception
  (`except: log + rollback`), so it is embedded as a total function.
-/

/-- A row of the `patient_records` table. -/
structure PatientRecord where
  patient_id : String
  name : Option String
  date_of_birth : Option Int
  insurance_id : Option String
  primary_provider : Option String
  contact_phone : Option String
  contact_email : Option String
  is_active : Bool
  deriving DecidableEq

/-- A row of the `claims` table. -/
structure Claim where
  claim_id : String
  patient_id : String
  provider_id : String
  claim_total_amount : ℚ
  service_date : Int
  submission_date : Int
  processing_date : Option Int
  deriving DecidableEq

/-- A row of the `claims_line_items` table. -/
structure ClaimLineItem where
  line_item_id : String
  claim_id : String
  line_item_amount : ℚ
  deriving DecidableEq

/-- A row of the `providers` table. -/
structure Provider where
  provider_id : String
  provider_name : String
  license_number : String
  license_state : String
  license_expiry_date : Int
  is_active : Bool
  deriving DecidableEq

/-- The queryable dataset, plus `CURRENT_DATE`. -/
structure Database where
  patients : List PatientRecord
  claims : List Claim
  line_items : List ClaimLineItem
  providers : List Provider
  current_date : Int
  deriving DecidableEq

/-- One row inserted into `quality_audit_log` (the arguments of
`log_quality_issue`). -/
structure Finding where
  check_type : String
  table_name : String
  record_id : String
  issue_type : String
  issue_description : String
  severity : String
  deriving DecidableEq

/-! ### check_patient_completeness -/

/-- The `missing_fields` array column of the completeness query:
`ARRAY_REMOVE(ARRAY[CASE ...], NULL)` in the fixed field order. -/
def missingFields (p : PatientRecord) : List String :=
  (if p.name.isNone then ["name"] else [])
    ++ (if p.date_of_birth.isNone then ["date_of_birth"] else [])
    ++ (if p.insurance_id.isNone then ["insurance_id"] else [])
    ++ (if p.primary_provider.isNone then ["primary_provider"] else [])
    ++ (if p.contact_phone.isNone && p.contact_email.isNone then ["contact_info"] else [])

/-- The `WHERE` clause of the completeness query. -/
def completenessFlag (p : PatientRecord) : Bool :=
  p.is_active
    && (p.name.isNone || p.date_of_birth.isNone || p.insurance_id.isNone
        || p.primary_provider.isNone
        || (p.contact_phone.isNone && p.contact_email.isNone))

/-- One result row of the completeness query. -/
structure CompletenessRow where
  patient_id : String
  name : Option String
  date_of_birth : Option Int
  insurance_id : Option String
  primary_provider : Option String
  contact_phone : Option String
  contact_email : Option String
  missing_fields : List String
  deriving DecidableEq

/-- The `SELECT` list of the completeness query applied to one record. -/
def completenessRowOf (p : PatientRecord) : CompletenessRow :=
  { patient_id := p.patient_id
    name := p.name
    date_of_birth := p.date_of_birth
    insurance_id := p.insurance_id
    primary_provider := p.primary_provider
    contact_phone := p.contact_phone
    contact_email := p.contact_email
    missing_fields := missingFields p }

/-- Result set of the completeness query. -/
def completenessRows (ps : List PatientRecord) : List CompletenessRow :=
  (ps.filter completenessFlag).map completenessRowOf

/-- The `log_quality_issue` call made for one completeness row. -/
def completenessFinding (r : CompletenessRow) : Finding :=
  { check_type := "completeness_check"
    table_name := "patient_records"
    record_id := r.patient_id
    issue_type := "incomplete_record"
    issue_description := "Missing fields: " ++ String.intercalate ", " r.missing_fields
    severity := if r.missing_fields.length > 2 then "HIGH" else "MEDIUM" }

/-! ### check_claims_discrepancies -/

/-- `COALESCE(SUM(cli.line_item_amount), 0)` for one claim of the
`claim_line_totals` CTE (the sum over the left-joined line items, `0` when
there are none). -/
def calculatedTotal (items : List ClaimLineItem) (c : Claim) : ℚ :=
  ((items.filter (fun li => li.claim_id == c.claim_id)).map
    (fun li => li.line_item_amount)).sum

/-- `COUNT(cli.line_item_id)` for one claim of the CTE. -/
def lineItemCount (items : List ClaimLineItem) (c : Claim) : Nat :=
  (items.filter (fun li => li.claim_id == c.claim_id)).length

/-- `ROUND(x, 2)` on an exact rational. -/
def roundTo2 (x : ℚ) : ℚ := ((round (x * 100) : ℤ) : ℚ) / 100

/-- One result row of the discrepancy query. -/
structure DiscrepancyRow where
  claim_id : String
  patient_id : String
  provider_id : String
  claim_total_amount : ℚ
  calculated_total : ℚ
  line_item_count : Nat
  discrepancy_amount : ℚ
  discrepancy_percentage : Option ℚ
  deriving DecidableEq

/-- The `SELECT` list of the discrepancy query applied to one claim:
`discrepancy_percentage` is `NULL` when `NULLIF(claim_total_amount, 0)` is
`NULL`, i.e. when the stated total is `0`. -/
def discrepancyRowOf (items : List ClaimLineItem) (c : Claim) : DiscrepancyRow :=
  { claim_id := c.claim_id
    patient_id := c.patient_id
    provider_id := c.provider_id
    claim_total_amount := c.claim_total_amount
    calculated_total := calculatedTotal items c
    line_item_count := lineItemCount items c
    discrepancy_amount := |c.claim_total_amount - calculatedTotal items c|
    discrepancy_percentage :=
      if c.claim_total_amount = 0 then none
      else some (roundTo2 (|c.claim_total_amount - calculatedTotal items c|
        / c.claim_total_amount * 100)) }

/-- Result set of the discrepancy query before `ORDER BY`:
the CTE maps every claim to a row, the outer `WHERE` keeps rows with
`ABS(claim_total_amount - calculated_total) > 0.01`. -/
def discrepancyRowsUnsorted (claims : List Claim) (items : List ClaimLineItem) :
    List DiscrepancyRow :=
  (claims.map (discrepancyRowOf items)).filter
    (fun r => decide (|r.claim_total_amount - r.calculated_total| > 1/100))

/-- Result set of the discrepancy query (`ORDER BY discrepancy_amount DESC`). -/
def discrepancyRows (claims : List Claim) (items : List ClaimLineItem) :
    List DiscrepancyRow :=
  (discrepancyRowsUnsorted claims items).insertionSort
    (fun a b => b.discrepancy_amount ≤ a.discrepancy_amount)

/-- Renders a rational with two decimals, embedding Python's `f"{x:.2f}"`. -/
def fmt2 (x : ℚ) : String :=
  let n : Int := round (x * 100)
  (if n < 0 then "-" else "")
    ++ toString (n.natAbs / 100) ++ "."
    ++ (if n.natAbs % 100 < 10 then "0" else "") ++ toString (n.natAbs % 100)

/-- The `log_quality_issue` call made for one discrepancy row. -/
def discrepancyFinding (r : DiscrepancyRow) : Finding :=
  { check_type := "discrepancy_check"
    table_name := "claims"
    record_id := r.claim_id
    issue_type := "amount_mismatch"
    issue_description := "Claim total: $" ++ fmt2 r.claim_total_amount
      ++ ", Line items sum: $" ++ fmt2 r.calculated_total
      ++ ", Discrepancy: $" ++ fmt2 r.discrepancy_amount
    severity := if r.discrepancy_amount > 1000 then "CRITICAL" else "HIGH" }

/-! ### check_temporal_anomalies -/

/-- The `WHERE` clause of the temporal query: `submission_date < service_date
OR (processing_date IS NOT NULL AND processing_date < submission_date)`. -/
def temporalFlag (c : Claim) : Bool :=
  decide (c.submission_date < c.service_date)
    || c.processing_date.any (fun p => decide (p < c.submission_date))

/-- The `CASE` column `anomaly_type`: the first matching `WHEN` wins. -/
def anomalyType (c : Claim) : Option String :=
  if c.submission_date < c.service_date then some "Submission before service"
  else if c.processing_date.any (fun p => decide (p < c.submission_date)) then
    some "Processing before submission"
  else none

/-- One result row of the temporal query. -/
structure TemporalRow where
  claim_id : String
  patient_id : String
  service_date : Int
  submission_date : Int
  processing_date : Option Int
  anomaly_type : Option String
  deriving DecidableEq

/-- The `SELECT` list of the temporal query applied to one claim. -/
def temporalRowOf (c : Claim) : TemporalRow :=
  { claim_id := c.claim_id
    patient_id := c.patient_id
    service_date := c.service_date
    submission_date := c.submission_date
    processing_date := c.processing_date
    anomaly_type := anomalyType c }

/-- The claims kept by the temporal query's `WHERE` clause. -/
def temporalFlagged (claims : List Claim) : List Claim :=
  claims.filter temporalFlag

/-- Result set of the temporal query. -/
def temporalRows (claims : List Claim) : List TemporalRow :=
  (temporalFlagged claims).map temporalRowOf

/-- The `log_quality_issue` call made for one temporal row
(`issue_description=row['anomaly_type']`; selected rows always carry a
label, so the `NULL` case is rendered as the empty string). -/
def temporalFinding (r : TemporalRow) : Finding :=
  { check_type := "temporal_check"
    table_name := "claims"
    record_id := r.claim_id
    issue_type := "temporal_anomaly"
    issue_description := r.anomaly_type.getD ""
    severity := "HIGH" }

/-! ### check_duplicate_records -/

/-- The `GROUP BY` key of the duplicate query. -/
def dupKey (p : PatientRecord) : Option String × Option Int :=
  (p.name, p.date_of_birth)

/-- The records kept by the duplicate query's `WHERE` clause. -/
def dupEligible (ps : List PatientRecord) : List PatientRecord :=
  ps.filter (fun p => p.name.isSome && p.date_of_birth.isSome && p.is_active)

/-- The distinct `GROUP BY` keys occurring among eligible records. -/
def dupKeys (ps : List PatientRecord) : List (Option String × Option Int) :=
  ((dupEligible ps).map dupKey).dedup

/-- The members of one `GROUP BY` group. -/
def dupMembers (ps : List PatientRecord) (k : Option String × Option Int) :
    List PatientRecord :=
  (dupEligible ps).filter (fun p => dupKey p == k)

/-- One result row of the duplicate query. -/
structure DupRow where
  name : Option String
  date_of_birth : Option Int
  duplicate_count : Nat
  patient_ids : List String
  deriving DecidableEq

/-- The `SELECT` list of the duplicate query for one group:
`COUNT(*)` and `ARRAY_AGG(patient_id)`. -/
def dupRowOf (ps : List PatientRecord) (k : Option String × Option Int) : DupRow :=
  { name := k.1
    date_of_birth := k.2
    duplicate_count := (dupMembers ps k).length
    patient_ids := (dupMembers ps k).map (fun p => p.patient_id) }

/-- Result set of the duplicate query before `ORDER BY`
(`HAVING COUNT(*) > 1` keeps one row per group of size at least two). -/
def dupRowsUnsorted (ps : List PatientRecord) : List DupRow :=
  (dupKeys ps).filterMap (fun k =>
    if (dupMembers ps k).length > 1 then some (dupRowOf ps k) else none)

/-- Result set of the duplicate query (`ORDER BY duplicate_count DESC`). -/
def dupRows (ps : List PatientRecord) : List DupRow :=
  (dupRowsUnsorted ps).insertionSort (fun a b => b.duplicate_count ≤ a.duplicate_count)

/-- The `log_quality_issue` call made for one duplicate group
(`record_id=row['patient_ids'][0]`; result rows always have at least two
ids, so the empty case is rendered by a default). -/
def dupFinding (r : DupRow) : Finding :=
  { check_type := "duplicate_check"
    table_name := "patient_records"
    record_id := r.patient_ids.headD ""
    issue_type := "potential_duplicate"
    issue_description := "Duplicate patients found: "
      ++ String.intercalate ", " r.patient_ids
    severity := "MEDIUM" }

/-! ### check_provider_credentials -/

/-- The `WHERE` clause of the credentials query:
`license_expiry_date < CURRENT_DATE AND is_active = TRUE`. -/
def credFlag (current : Int) (p : Provider) : Bool :=
  decide (p.license_expiry_date < current) && p.is_active

/-- The providers kept by the credentials query's `WHERE` clause. -/
def credFlagged (current : Int) (ps : List Provider) : List Provider :=
  ps.filter (credFlag current)

/-- One result row of the credentials query. -/
structure CredRow where
  provider_id : String
  provider_name : String
  license_number : String
  license_state : String
  license_expiry_date : Int
  days_expired : Int
  deriving DecidableEq

/-- The `SELECT` list of the credentials query applied to one provider
(`days_expired = CURRENT_DATE - license_expiry_date`). -/
def credRowOf (current : Int) (p : Provider) : CredRow :=
  { provider_id := p.provider_id
    provider_name := p.provider_name
    license_number := p.license_number
    license_state := p.license_state
    license_expiry_date := p.license_expiry_date
    days_expired := current - p.license_expiry_date }

/-- Result set of the credentials query (`ORDER BY license_expiry_date`). -/
def credentialRows (current : Int) (ps : List Provider) : List CredRow :=
  ((credFlagged current ps).map (credRowOf current)).insertionSort
    (fun a b => a.license_expiry_date ≤ b.license_expiry_date)

/-- The `log_quality_issue` call made for one credentials row. -/
def credFinding (r : CredRow) : Finding :=
  { check_type := "credential_check"
    table_name := "providers"
    record_id := r.provider_id
    issue_type := "expired_license"
    issue_description := "License expired " ++ toString r.days_expired ++ " days ago"
    severity := "CRITICAL" }

/-! ### AuditSink: log_quality_issue -/

/-- State of the `quality_audit_log` sink: how many `INSERT`s were attempted
so far, and the rows that committed. -/
structure AuditState where
  attempts : Nat
  entries : List Finding
  deriving DecidableEq

/-- `log_quality_issue`: attempts one `INSERT INTO quality_audit_log`.
`sinkOk` is the failure oracle for the n-th attempted write.  The Python
body wraps the write in `try/except`: on failure it logs the error and
rolls back, and never re-raises, so the embedding is a total function. -/
def log_quality_issue (sinkOk : Nat → Bool) (st : AuditState) (f : Finding) :
    AuditState :=
  if sinkOk st.attempts then
    { attempts := st.attempts + 1, entries := st.entries ++ [f] }
  else
    { attempts := st.attempts + 1, entries := st.entries }

/-- The per-row `log_quality_issue` loop of a check method. -/
def writeAll (sinkOk : Nat → Bool) (st : AuditState) (fs : List Finding) :
    AuditState :=
  fs.foldl (log_quality_issue sinkOk) st

/-! ### The five check methods -/

/-- The `details` DataFrame of one check result. -/
inductive CheckDetails where
  | patients : List CompletenessRow → CheckDetails
  | discrepancies : List DiscrepancyRow → CheckDetails
  | temporal : List TemporalRow → CheckDetails
  | duplicates : List DupRow → CheckDetails
  | credentials : List CredRow → CheckDetails
  deriving DecidableEq

/-- The dictionary returned by one check method. -/
structure CheckResult where
  check_name : String
  issues_found : Nat
  total_discrepancy : Option ℚ := none
  total_duplicates : Option Nat := none
  details : CheckDetails
  deriving DecidableEq

/-- `check_patient_completeness`: runs the query, logs each incomplete
record, returns the result dictionary. -/
def check_patient_completeness (sinkOk : Nat → Bool) (db : Database)
    (st : AuditState) : CheckResult × AuditState :=
  let results := completenessRows db.patients
  ({ check_name := "Patient Completeness"
     issues_found := results.length
     details := CheckDetails.patients results },
   writeAll sinkOk st (results.map completenessFinding))

/-- `check_claims_discrepancies`. -/
def check_claims_discrepancies (sinkOk : Nat → Bool) (db : Database)
    (st : AuditState) : CheckResult × AuditState :=
  let results := discrepancyRows db.claims db.line_items
  ({ check_name := "Claims Discrepancies"
     issues_found := results.length
     total_discrepancy :=
       some (if results.length > 0 then
         (results.map (fun r => r.discrepancy_amount)).sum else 0)
     details := CheckDetails.discrepancies results },
   writeAll sinkOk st (results.map discrepancyFinding))

/-- `check_temporal_anomalies`. -/
def check_temporal_anomalies (sinkOk : Nat → Bool) (db : Database)
    (st : AuditState) : CheckResult × AuditState :=
  let results := temporalRows db.claims
  ({ check_name := "Temporal Anomalies"
     issues_found := results.length
     details := CheckDetails.temporal results },
   writeAll sinkOk st (results.map temporalFinding))

/-- `check_duplicate_records`. -/
def check_duplicate_records (sinkOk : Nat → Bool) (db : Database)
    (st : AuditState) : CheckResult × AuditState :=
  let results := dupRows db.patients
  ({ check_name := "Duplicate Records"
     issues_found := results.length
     total_duplicates :=
       some (if results.length > 0 then
         (results.map (fun r => r.duplicate_count)).sum else 0)
     details := CheckDetails.duplicates results },
   writeAll sinkOk st (results.map dupFinding))

/-- `check_provider_credentials`. -/
def check_provider_credentials (sinkOk : Nat → Bool) (db : Database)
    (st : AuditState) : CheckResult × AuditState :=
  let results := credentialRows db.current_date db.providers
  ({ check_name := "Provider Credentials"
     issues_found := results.length
     details := CheckDetails.credentials results },
   writeAll sinkOk st (results.map credFinding))

/-! ### run_all_checks -/

/-- The keys of the `checks` dictionary. -/
inductive CheckId where
  | patient_completeness
  | claims_discrepancies
  | temporal_anomalies
  | duplicate_records
  | provider_credentials
  deriving DecidableEq

/-- The order in which the `checks` dictionary literal evaluates its five
method calls. -/
def checkOrder : List CheckId :=
  [CheckId.patient_completeness, CheckId.claims_discrepancies,
   CheckId.temporal_anomalies, CheckId.duplicate_records,
   CheckId.provider_credentials]

/-- The findings a check's per-row loop passes to `log_quality_issue`. -/
def checkFindings (db : Database) : CheckId → List Finding
  | CheckId.patient_completeness =>
      (completenessRows db.patients).map completenessFinding
  | CheckId.claims_discrepancies =>
      (discrepancyRows db.claims db.line_items).map discrepancyFinding
  | CheckId.temporal_anomalies =>
      (temporalRows db.claims).map temporalFinding
  | CheckId.duplicate_records =>
      (dupRows db.patients).map dupFinding
  | CheckId.provider_credentials =>
      (credentialRows db.current_date db.providers).map credFinding

/-- The check method belonging to one key of the `checks` dictionary. -/
def checkBody (sinkOk : Nat → Bool) (db : Database) (st : AuditState) :
    CheckId → CheckResult × AuditState
  | CheckId.patient_completeness => check_patient_completeness sinkOk db st
  | CheckId.claims_discrepancies => check_claims_discrepancies sinkOk db st
  | CheckId.temporal_anomalies => check_temporal_anomalies sinkOk db st
  | CheckId.duplicate_records => check_duplicate_records sinkOk db st
  | CheckId.provider_credentials => check_provider_credentials sinkOk db st

/-- Dispatches one check method.  `fails` is the `DataAccessError` oracle:
when the check's query raises, `execute_query` logs and re-raises, the
per-row loop never runs, and the exception leaves the method. -/
def runCheck (sinkOk : Nat → Bool) (fails : CheckId → Bool) (db : Database)
    (st : AuditState) (c : CheckId) : Except String (CheckResult × AuditState) :=
  if fails c then Except.error "DataAccessError"
  else Except.ok (checkBody sinkOk db st c)

/-- Evaluates the check methods in order, as the Python dictionary literal
does: the first exception aborts the remaining calls and propagates.
Returns the collected `(key, result)` pairs or the error, the audit state
(writes made before a failure persist), and the trace of checks that were
invoked. -/
def runChecksFrom (sinkOk : Nat → Bool) (fails : CheckId → Bool) (db : Database) :
    AuditState → List CheckId →
    Except String (List (CheckId × CheckResult)) × AuditState × List CheckId
  | st, [] => (Except.ok [], st, [])
  | st, c :: rest =>
    match runCheck sinkOk fails db st c with
    | Except.error e => (Except.error e, st, [c])
    | Except.ok (r, st2) =>
      match runChecksFrom sinkOk fails db st2 rest with
      | (Except.ok rs, st3, ex) => (Except.ok ((c, r) :: rs), st3, c :: ex)
      | (Except.error e, st3, ex) => (Except.error e, st3, c :: ex)

/-- The `summary` dictionary computed at the end of `run_all_checks`. -/
structure Summary where
  total_issues_found : Nat
  checks_performed : Nat
  status : String
  deriving DecidableEq

/-- The full results dictionary of `run_all_checks`. -/
structure Report where
  timestamp : String
  checks : List (CheckId × CheckResult)
  summary : Summary
  deriving DecidableEq

/-- Builds the report from the evaluated `checks` dictionary: the summary is
recomputed from the collected results. -/
def mkReport (now : String) (checks : List (CheckId × CheckResult)) : Report :=
  let total_issues := (checks.map (fun kv => kv.2.issues_found)).sum
  { timestamp := now
    checks := checks
    summary :=
      { total_issues_found := total_issues
        checks_performed := checks.length
        status := if total_issues > 0 then "FAIL" else "PASS" } }

/-- `disconnect`: closes the connection when one is open. -/
def disconnect (conn : Bool) : Bool := if conn then false else conn

/-- Observable outcome of one `run_all_checks` call: the returned report or
the propagated exception, the audit sink state, the trace of invoked
checks, and whether the connection is still open afterwards. -/
structure RunOutcome where
  result : Except String Report
  audit : AuditState
  executed : List CheckId
  connection_open : Bool

/-- `run_all_checks`: `connect()` (whose success is the `connectOk` oracle —
on failure the exception propagates with no connection opened), then the
`try` block evaluating the five checks, then the summary; the `finally`
block disconnects on every exit path of the `try`. -/
def run_all_checks (now : String) (connectOk : Bool) (sinkOk : Nat → Bool)
    (fails : CheckId → Bool) (db : Database) : RunOutcome :=
  if connectOk then
    let t := runChecksFrom sinkOk fails db { attempts := 0, entries := [] } checkOrder
    { result := t.1.map (mkReport now)
      audit := t.2.1
      executed := t.2.2
      connection_open := disconnect true }
  else
    { result := Except.error "ConnectionError"
      audit := { attempts := 0, entries := [] }
      executed := []
      connection_open := false }

/-! ### Fixed sample inputs -/

/-- A dataset with empty tables. -/
def emptyDb : Database :=
  { patients := [], claims := [], line_items := [], providers := [], current_date := 0 }

/-- Failure oracle that makes exactly one check's query raise. -/
def failsOnly (i : CheckId) : CheckId → Bool := fun c => decide (c = i)

/-- A run on the empty dataset with no failures. -/
def sampleRun : RunOutcome :=
  run_all_checks "t" true (fun _ => true) (fun _ => false) emptyDb

/-- Placeholder report used only to read a report out of an `Except`. -/
def fallbackReport : Report :=
  { timestamp := ""
    checks := []
    summary := { total_issues_found := 0, checks_performed := 0, status := "" } }

/-- The report of a successful run outcome. -/
def reportOf (o : RunOutcome) : Report :=
  match o.result with
  | Except.ok r => r
  | Except.error _ => fallbackReport

/-! ### Engine-level lemmas -/

theorem checkBody_fst (s1 s2 : Nat → Bool) (db : Database)
    (st1 st2 : AuditState) (c : CheckId) :
    (checkBody s1 db st1 c).1 = (checkBody s2 db st2 c).1 := by
  cases c <;> rfl

theorem writeAll_attempts (sinkOk : Nat → Bool) (fs : List Finding) :
    ∀ st : AuditState, (writeAll sinkOk st fs).attempts = st.attempts + fs.length := by
  induction fs with
  | nil => intro st; simp [writeAll]
  | cons f fs ih =>
    intro st
    have h1 : writeAll sinkOk st (f :: fs) = writeAll sinkOk (log_quality_issue sinkOk st f) fs := rfl
    rw [h1, ih]
    have h2 : (log_quality_issue sinkOk st f).attempts = st.attempts + 1 := by
      unfold log_quality_issue
      split <;> rfl
    rw [h2]
    simp [List.length_cons]
    omega

theorem run_all_checks_result (now : String) (connectOk : Bool) (sinkOk : Nat → Bool)
    (fails : CheckId → Bool) (db : Database) :
    (run_all_checks now connectOk sinkOk fails db).result
      = if connectOk then
          (runChecksFrom sinkOk fails db { attempts := 0, entries := [] } checkOrder).1.map
            (mkReport now)
        else Except.error "ConnectionError" := by
  cases connectOk <;> rfl

theorem runChecksFrom_indep (fails : CheckId → Bool) (db : Database)
    (s1 s2 : Nat → Bool) :
    ∀ (l : List CheckId) (st1 st2 : AuditState),
      (runChecksFrom s1 fails db st1 l).1 = (runChecksFrom s2 fails db st2 l).1
      ∧ (runChecksFrom s1 fails db st1 l).2.2 = (runChecksFrom s2 fails db st2 l).2.2 := by
  intro l
  induction l with
  | nil => intro st1 st2; exact ⟨rfl, rfl⟩
  | cons c rest ih =>
    intro st1 st2
    by_cases hf : fails c = true
    · simp [runChecksFrom, runCheck, hf]
    · rcases h1 : checkBody s1 db st1 c with ⟨r1, stA⟩
      rcases h2 : checkBody s2 db st2 c with ⟨r2, stB⟩
      have hr : r1 = r2 := by
        have e1 : (checkBody s1 db st1 c).1 = r1 := by rw [h1]
        have e2 : (checkBody s2 db st2 c).1 = r2 := by rw [h2]
        rw [← e1, ← e2]
        exact checkBody_fst s1 s2 db st1 st2 c
      rcases h3 : runChecksFrom s1 fails db stA rest with ⟨res1, stC, ex1⟩
      rcases h4 : runChecksFrom s2 fails db stB rest with ⟨res2, stD, ex2⟩
      have hres : res1 = res2 := by
        have := (ih stA stB).1
        rw [h3, h4] at this
        exact this
      have hex : ex1 = ex2 := by
        have := (ih stA stB).2
        rw [h3, h4] at this
        exact this
      have hf2 : fails c = false := by
        cases hfc : fails c
        · rfl
        · exact absurd hfc hf
      subst hr hres hex
      have e1 : runCheck s1 fails db st1 c = Except.ok (r1, stA) := by
        simp [runCheck, hf2, h1]
      have e2 : runCheck s2 fails db st2 c = Except.ok (r1, stB) := by
        simp [runCheck, hf2, h2]
      simp only [runChecksFrom, e1, e2, h3, h4]
      cases res1 <;> exact ⟨rfl, rfl⟩

/-! ### Claim theorems: engine behaviour -/

/-- C4: whenever connection acquisition succeeds, the connection is closed on
every exit path of `run_all_checks` — normal return and any rule failure
alike — because `disconnect` runs in the `finally` block. -/
theorem C4_connection_released (now : String) (sinkOk : Nat → Bool)
    (fails : CheckId → Bool) (db : Database) :
    (run_all_checks now true sinkOk fails db).connection_open = false := rfl

/-- C2: for every completed run, the summary is recomputed from the results:
`total_issues_found` is the sum of `issues_found` over the checks, and the
status is `FAIL` exactly on a positive total and `PASS` on a zero total. -/
theorem C2_summary_pure (now : String) (connectOk : Bool) (sinkOk : Nat → Bool)
    (fails : CheckId → Bool) (db : Database) (r : Report)
    (h : (run_all_checks now connectOk sinkOk fails db).result = Except.ok r) :
    r.summary.total_issues_found = (r.checks.map (fun kv => kv.2.issues_found)).sum
    ∧ (r.summary.total_issues_found > 0 → r.summary.status = "FAIL")
    ∧ (r.summary.total_issues_found = 0 → r.summary.status = "PASS") := by
  cases connectOk with
  | false => simp [run_all_checks] at h
  | true =>
    rcases ht : (runChecksFrom sinkOk fails db { attempts := 0, entries := [] } checkOrder).1
      with e | checks
    · rw [run_all_checks] at h
      simp only [if_true] at h
      rw [ht] at h
      simp [Except.map] at h
    · rw [run_all_checks] at h
      simp only [if_true] at h
      rw [ht] at h
      simp only [Except.map] at h
      have hr : r = mkReport now checks := by
        cases h
        rfl
      subst hr
      refine ⟨rfl, ?_, ?_⟩
      · intro hpos
        show (if (checks.map (fun kv => kv.2.issues_found)).sum > 0 then "FAIL" else "PASS") = "FAIL"
        exact if_pos hpos
      · intro hzero
        show (if (checks.map (fun kv => kv.2.issues_found)).sum > 0 then "FAIL" else "PASS") = "PASS"
        have : ¬((checks.map (fun kv => kv.2.issues_found)).sum > 0) := by
          have hz : (mkReport now checks).summary.total_issues_found
              = (checks.map (fun kv => kv.2.issues_found)).sum := rfl
          rw [hz] at hzero
          omega
        exact if_neg this

/-- Witness for C2: a concrete successful run, with the hypotheses of
`C2_summary_pure` discharged on it. -/
theorem C2_summary_pure_witness :
    sampleRun.result = Except.ok (reportOf sampleRun)
    ∧ ((reportOf sampleRun).summary.total_issues_found
        = ((reportOf sampleRun).checks.map (fun kv => kv.2.issues_found)).sum
      ∧ ((reportOf sampleRun).summary.total_issues_found > 0 →
          (reportOf sampleRun).summary.status = "FAIL")
      ∧ ((reportOf sampleRun).summary.total_issues_found = 0 →
          (reportOf sampleRun).summary.status = "PASS")) :=
  ⟨rfl, C2_summary_pure "t" true (fun _ => true) (fun _ => false) emptyDb
    (reportOf sampleRun) rfl⟩

/-- C1 fails on the code: with only the second check's query raising, the run
aborts — `run_all_checks` returns no report at all, and only the first two
checks were ever invoked; the remaining three never execute. -/
theorem C1_counterexample :
    (run_all_checks "t" true (fun _ => true)
        (failsOnly CheckId.claims_discrepancies) emptyDb).result
      = Except.error "DataAccessError"
    ∧ (run_all_checks "t" true (fun _ => true)
        (failsOnly CheckId.claims_discrepancies) emptyDb).executed
      = [CheckId.patient_completeness, CheckId.claims_discrepancies] :=
  ⟨rfl, rfl⟩

/-- C1 (amended): when exactly one rule's query raises a `DataAccessError`,
the exception propagates out of `run_all_checks`: the checks before the
failing one execute, the later ones do not, no report is returned, and the
connection is still released by the `finally` block. -/
theorem C1_amended_rule_failure_aborts (now : String) (sinkOk : Nat → Bool)
    (db : Database) (i : CheckId) :
    (run_all_checks now true sinkOk (failsOnly i) db).result
      = Except.error "DataAccessError"
    ∧ (run_all_checks now true sinkOk (failsOnly i) db).executed
      = checkOrder.takeWhile (fun c => !decide (c = i)) ++ [i]
    ∧ (run_all_checks now true sinkOk (failsOnly i) db).connection_open = false := by
  cases i <;> exact ⟨rfl, rfl, rfl⟩

/-- C3: a failed audit write is swallowed inside `log_quality_issue`, so no
check method aborts: its returned result (in particular `issues_found`) is
the one an all-successful sink would produce, every finding of the check is
still offered to the sink (the attempt count always advances by the full
findings count), and the whole run's returned report is unchanged. -/
theorem C3_audit_write_failure_contained (sinkOk : Nat → Bool) (db : Database)
    (st : AuditState) (c : CheckId) (now : String) (connectOk : Bool)
    (fails : CheckId → Bool) :
    (checkBody sinkOk db st c).1 = (checkBody (fun _ => true) db st c).1
    ∧ (checkBody sinkOk db st c).2.attempts = st.attempts + (checkFindings db c).length
    ∧ (run_all_checks now connectOk sinkOk fails db).result
      = (run_all_checks now connectOk (fun _ => true) fails db).result := by
  refine ⟨checkBody_fst sinkOk (fun _ => true) db st st c, ?_, ?_⟩
  · cases c <;>
      simp [checkBody, check_patient_completeness, check_claims_discrepancies,
        check_temporal_anomalies, check_duplicate_records,
        check_provider_credentials, checkFindings, writeAll_attempts]
  · rw [run_all_checks_result, run_all_checks_result,
      (runChecksFrom_indep fails db sinkOk (fun _ => true) checkOrder
        { attempts := 0, entries := [] } { attempts := 0, entries := [] }).1]

/-! ### Claim theorems: completeness rule -/

/-- C5: for every record flagged by the completeness check, the finding's
severity is HIGH exactly when the row's missing-field list (null required
fields plus the contact_info label when both contact fields are null) has
more than 2 elements, and MEDIUM otherwise; the row comes from an active
record and its missing-field list is computed by `missingFields`. -/
theorem C5_completeness_severity (ps : List PatientRecord) (r : CompletenessRow)
    (h : r ∈ completenessRows ps) :
    ((completenessFinding r).severity = "HIGH" ↔ r.missing_fields.length > 2)
    ∧ ((completenessFinding r).severity = "MEDIUM" ↔ ¬(r.missing_fields.length > 2))
    ∧ ∃ p, p ∈ ps ∧ p.is_active = true ∧ r = completenessRowOf p
        ∧ r.missing_fields = missingFields p := by
  refine ⟨?_, ?_, ?_⟩
  · show (if r.missing_fields.length > 2 then "HIGH" else "MEDIUM") = "HIGH"
      ↔ r.missing_fields.length > 2
    by_cases hc : r.missing_fields.length > 2
    · simp [hc]
    · rw [if_neg hc]
      constructor
      · intro hMH
        exact absurd hMH (by decide)
      · intro h2
        exact absurd h2 hc
  · show (if r.missing_fields.length > 2 then "HIGH" else "MEDIUM") = "MEDIUM"
      ↔ ¬(r.missing_fields.length > 2)
    by_cases hc : r.missing_fields.length > 2
    · rw [if_pos hc]
      constructor
      · intro hHM
        exact absurd hHM (by decide)
      · intro h2
        exact absurd hc h2
    · simp [hc]
  · unfold completenessRows at h
    rcases List.mem_map.mp h with ⟨p, hpf, hpr⟩
    rcases List.mem_filter.mp hpf with ⟨hp, hflag⟩
    have hact : p.is_active = true := by
      unfold completenessFlag at hflag
      exact (Bool.and_eq_true _ _ |>.mp hflag).1
    exact ⟨p, hp, hact, hpr.symm, by rw [← hpr]; rfl⟩

/-- A record with 3 missing tracked fields (insurance, provider, and the
contact pair). -/
def patMissing3 : PatientRecord :=
  { patient_id := "P1", name := some "A", date_of_birth := some 1
    insurance_id := none, primary_provider := none
    contact_phone := none, contact_email := none, is_active := true }

/-- A record with exactly 1 missing tracked field (insurance). -/
def patMissing1 : PatientRecord :=
  { patient_id := "P2", name := some "B", date_of_birth := some 2
    insurance_id := none, primary_provider := some "Dr"
    contact_phone := some "555", contact_email := none, is_active := true }

/-- Witness for C5: missing exactly 3 tracked fields yields HIGH, missing
exactly 1 yields MEDIUM. -/
theorem C5_completeness_severity_witness :
    completenessRowOf patMissing3 ∈ completenessRows [patMissing3, patMissing1]
    ∧ (completenessRowOf patMissing3).missing_fields.length = 3
    ∧ (completenessFinding (completenessRowOf patMissing3)).severity = "HIGH"
    ∧ completenessRowOf patMissing1 ∈ completenessRows [patMissing3, patMissing1]
    ∧ (completenessRowOf patMissing1).missing_fields.length = 1
    ∧ (completenessFinding (completenessRowOf patMissing1)).severity = "MEDIUM" := by
  have h3 : completenessRowOf patMissing3 ∈ completenessRows [patMissing3, patMissing1] := by
    decide
  have h1 : completenessRowOf patMissing1 ∈ completenessRows [patMissing3, patMissing1] := by
    decide
  exact ⟨h3, by decide,
    (C5_completeness_severity _ _ h3).1.mpr (by decide),
    h1, by decide,
    (C5_completeness_severity _ _ h1).2.1.mpr (by decide)⟩

/-! ### Claim theorems: amount reconciliation rule -/

/-- C6: a claim is flagged exactly when the absolute difference between its
stated total and the sum of its line items (0 when it has none) exceeds the
0.01 tolerance; a stated total of 0 gives a NULL discrepancy percentage
(the row is still produced — nothing crashes). -/
theorem C6_discrepancy_tolerance (claims : List Claim) (items : List ClaimLineItem)
    (c : Claim) (hc : c ∈ claims) :
    (discrepancyRowOf items c ∈ discrepancyRows claims items
      ↔ |c.claim_total_amount - calculatedTotal items c| > 1/100)
    ∧ (items.filter (fun li => li.claim_id == c.claim_id) = [] →
        calculatedTotal items c = 0)
    ∧ (c.claim_total_amount = 0 →
        (discrepancyRowOf items c).discrepancy_percentage = none) := by
  refine ⟨?_, ?_, ?_⟩
  · constructor
    · intro hmem
      have hmem2 : discrepancyRowOf items c ∈ discrepancyRowsUnsorted claims items :=
        (List.mem_insertionSort _).mp hmem
      unfold discrepancyRowsUnsorted at hmem2
      have hpred := (List.mem_filter.mp hmem2).2
      exact of_decide_eq_true hpred
    · intro hgt
      apply (List.mem_insertionSort _).mpr
      unfold discrepancyRowsUnsorted
      exact List.mem_filter.mpr
        ⟨List.mem_map.mpr ⟨c, hc, rfl⟩, decide_eq_true hgt⟩
  · intro hnil
    unfold calculatedTotal
    rw [hnil]
    rfl
  · intro h0
    show (if c.claim_total_amount = 0 then none else _) = none
    rw [if_pos h0]

/-- A claim stating $100 whose single line item sums to $150. -/
def claimBig : Claim :=
  { claim_id := "c1", patient_id := "p", provider_id := "pr"
    claim_total_amount := 100, service_date := 0, submission_date := 0
    processing_date := none }

/-- Its line item. -/
def itemBig : ClaimLineItem :=
  { line_item_id := "l1", claim_id := "c1", line_item_amount := 150 }

/-- A claim stating $0 whose single line item sums to $5. -/
def claimZero : Claim :=
  { claim_id := "c2", patient_id := "p", provider_id := "pr"
    claim_total_amount := 0, service_date := 0, submission_date := 0
    processing_date := none }

/-- Its line item. -/
def itemZero : ClaimLineItem :=
  { line_item_id := "l2", claim_id := "c2", line_item_amount := 5 }

/-- Witness for C6: the $100-vs-$150 claim is flagged, and the zero-stated
claim with a nonzero calculated total yields a NULL percentage. -/
theorem C6_discrepancy_tolerance_witness :
    discrepancyRowOf [itemBig, itemZero] claimBig
      ∈ discrepancyRows [claimBig, claimZero] [itemBig, itemZero]
    ∧ (discrepancyRowOf [itemBig, itemZero] claimZero).discrepancy_percentage = none
    ∧ calculatedTotal [itemBig, itemZero] claimZero = 5 := by
  have hcalc : calculatedTotal [itemBig, itemZero] claimBig = 150 := by
    simp [calculatedTotal, itemBig, itemZero, claimBig]
  have hcalc0 : calculatedTotal [itemBig, itemZero] claimZero = 5 := by
    simp [calculatedTotal, itemBig, itemZero, claimZero]
  refine ⟨?_, ?_, hcalc0⟩
  · apply (C6_discrepancy_tolerance [claimBig, claimZero] [itemBig, itemZero]
      claimBig (by simp)).1.mpr
    rw [hcalc]
    show |claimBig.claim_total_amount - (150 : ℚ)| > 1/100
    norm_num [claimBig]
  · exact (C6_discrepancy_tolerance [claimBig, claimZero] [itemBig, itemZero]
      claimZero (by simp)).2.2 rfl

/-! ### Claim theorems: temporal ordering rule -/

/-- C7: a claim whose submission date precedes its service date is labeled
"Submission before service" — the first `CASE` branch wins even when the
processing date also precedes the submission date — and each occurrence of
such a claim contributes exactly one result row (never two). -/
theorem C7_temporal_first_label (claims : List Claim) (c : Claim)
    (h : c.submission_date < c.service_date) :
    anomalyType c = some "Submission before service"
    ∧ (temporalRowOf c).anomaly_type = some "Submission before service"
    ∧ (temporalFinding (temporalRowOf c)).issue_description = "Submission before service"
    ∧ (temporalFlagged claims).count c = claims.count c := by
  have ha : anomalyType c = some "Submission before service" := by
    unfold anomalyType
    rw [if_pos h]
  refine ⟨ha, ha, ?_, ?_⟩
  · show (temporalRowOf c).anomaly_type.getD "" = "Submission before service"
    rw [show (temporalRowOf c).anomaly_type = anomalyType c from rfl, ha]
    rfl
  · apply List.count_filter
    show temporalFlag c = true
    simp [temporalFlag, h]

/-- A claim violating both temporal conditions: submitted before service and
processed before submission. -/
def claimBothBad : Claim :=
  { claim_id := "c3", patient_id := "p", provider_id := "pr"
    claim_total_amount := 0, service_date := 10, submission_date := 5
    processing_date := some 3 }

/-- Witness for C7: with both violations present, only the first label is
produced and the claim is flagged exactly once. -/
theorem C7_temporal_first_label_witness :
    anomalyType claimBothBad = some "Submission before service"
    ∧ (temporalFinding (temporalRowOf claimBothBad)).issue_description
      = "Submission before service"
    ∧ (temporalFlagged [claimBothBad]).count claimBothBad
      = [claimBothBad].count claimBothBad
    ∧ claimBothBad.processing_date.any
        (fun p => decide (p < claimBothBad.submission_date)) = true :=
  ⟨(C7_temporal_first_label [claimBothBad] claimBothBad (by decide)).1,
   (C7_temporal_first_label [claimBothBad] claimBothBad (by decide)).2.2.1,
   (C7_temporal_first_label [claimBothBad] claimBothBad (by decide)).2.2.2,
   rfl⟩

/-! ### Claim theorems: credential expiry rule -/

/-- C9: an active provider is flagged exactly when its expiry date is
strictly before the current date — equality is never flagged — and every
result row's `days_expired` is the integer day difference
`current - expiry`. -/
theorem C9_credential_strict_expiry (current : Int) (ps : List Provider) (p : Provider) :
    (p ∈ ps → p.is_active = true → p.license_expiry_date < current →
      credRowOf current p ∈ credentialRows current ps)
    ∧ (∀ r, r ∈ credentialRows current ps →
        r.license_expiry_date < current
        ∧ r.days_expired = current - r.license_expiry_date)
    ∧ (p.license_expiry_date = current → credRowOf current p ∉ credentialRows current ps) := by
  have hall : ∀ r, r ∈ credentialRows current ps →
      r.license_expiry_date < current
      ∧ r.days_expired = current - r.license_expiry_date := by
    intro r hr
    have hr2 : r ∈ (credFlagged current ps).map (credRowOf current) :=
      (List.mem_insertionSort _).mp hr
    rcases List.mem_map.mp hr2 with ⟨q, hq, hqr⟩
    rcases List.mem_filter.mp hq with ⟨hqs, hflag⟩
    have hflag2 : q.license_expiry_date < current ∧ q.is_active = true := by
      simpa [credFlag] using hflag
    subst hqr
    exact ⟨hflag2.1, rfl⟩
  refine ⟨?_, hall, ?_⟩
  · intro hp hact hlt
    apply (List.mem_insertionSort _).mpr
    exact List.mem_map.mpr ⟨p, List.mem_filter.mpr ⟨hp, by simp [credFlag, hlt, hact]⟩, rfl⟩
  · intro heq hmem2
    have hlt := (hall _ hmem2).1
    rw [show (credRowOf current p).license_expiry_date = p.license_expiry_date from rfl,
      heq] at hlt
    exact lt_irrefl current hlt

/-- An active provider one day past expiry on day 100. -/
def provExpired : Provider :=
  { provider_id := "pr1", provider_name := "A", license_number := "L1"
    license_state := "NY", license_expiry_date := 99, is_active := true }

/-- An active provider expiring exactly on day 100. -/
def provToday : Provider :=
  { provider_id := "pr2", provider_name := "B", license_number := "L2"
    license_state := "NY", license_expiry_date := 100, is_active := true }

/-- Witness for C9: one day past expiry is flagged with `days_expired = 1`;
expiry exactly today is not flagged. -/
theorem C9_credential_strict_expiry_witness :
    credRowOf 100 provExpired ∈ credentialRows 100 [provExpired, provToday]
    ∧ (credRowOf 100 provExpired).days_expired = 1
    ∧ credRowOf 100 provToday ∉ credentialRows 100 [provExpired, provToday] :=
  ⟨(C9_credential_strict_expiry 100 [provExpired, provToday] provExpired).1
      (by decide) rfl (by decide),
   rfl,
   (C9_credential_strict_expiry 100 [provExpired, provToday] provToday).2.2 rfl⟩

/-! ### Claim theorems: duplicate detection rule -/

theorem filterMap_if_eq_map_filter {K β : Type} (l : List K) (P : K → Prop)
    [DecidablePred P] (g : K → β) :
    l.filterMap (fun k => if P k then some (g k) else none)
      = (l.filter (fun k => decide (P k))).map g := by
  induction l with
  | nil => rfl
  | cons a l ih =>
    by_cases h : P a
    · simp [List.filterMap_cons, h, ih]
    · simp [List.filterMap_cons, h, ih]

theorem dupRowsUnsorted_eq (ps : List PatientRecord) :
    dupRowsUnsorted ps
      = ((dupKeys ps).filter (fun k => decide ((dupMembers ps k).length > 1))).map
          (dupRowOf ps) :=
  filterMap_if_eq_map_filter (dupKeys ps) (fun k => (dupMembers ps k).length > 1)
    (dupRowOf ps)

theorem mem_dupKeys (ps : List PatientRecord) (k : Option String × Option Int) :
    k ∈ dupKeys ps ↔ dupMembers ps k ≠ [] := by
  constructor
  · intro hk
    have hk2 : k ∈ (dupEligible ps).map dupKey := List.mem_dedup.mp hk
    rcases List.mem_map.mp hk2 with ⟨p, hp, hpk⟩
    have hpm : p ∈ dupMembers ps k :=
      List.mem_filter.mpr ⟨hp, beq_iff_eq.mpr hpk⟩
    intro hnil
    rw [hnil] at hpm
    cases hpm
  · intro hne
    rcases List.exists_mem_of_ne_nil _ hne with ⟨p, hp⟩
    rcases List.mem_filter.mp hp with ⟨hpe, hpk⟩
    have hpk2 : dupKey p = k := beq_iff_eq.mp hpk
    exact List.mem_dedup.mpr (List.mem_map.mpr ⟨p, hpe, hpk2⟩)

theorem countP_eq_one_of_nodup_mem {α : Type} [BEq α] [LawfulBEq α]
    (l : List α) (k : α) (hn : l.Nodup) (hk : k ∈ l) :
    l.countP (fun x => x == k) = 1 := by
  induction l with
  | nil => cases hk
  | cons a l ih =>
    rw [List.countP_cons]
    rcases List.mem_cons.mp hk with heq | hmem
    · subst heq
      have hnotin : k ∉ l := (List.nodup_cons.mp hn).1
      have h0 : l.countP (fun x => x == k) = 0 := by
        apply List.countP_eq_zero.mpr
        intro x hx hbeq
        exact hnotin (beq_iff_eq.mp hbeq ▸ hx)
      rw [h0]
      simp
    · have ha : (a == k) = false := by
        rcases hbeq : a == k with _ | _
        · rfl
        · exact absurd (beq_iff_eq.mp hbeq ▸ hmem) (List.nodup_cons.mp hn).1
      rw [ih (List.nodup_cons.mp hn).2 hmem, ha]
      rfl

/-- C8: a group of active records sharing a non-null name and birth date,
of size greater than 1, is flagged exactly once: one result row carries the
whole group, its `duplicate_count` is the group size, its finding lists
every member id comma-joined; `issues_found` (the number of result rows)
counts groups while `total_duplicates` sums group sizes. -/
theorem C8_duplicate_grouping (ps : List PatientRecord)
    (k : Option String × Option Int)
    (hlen : (dupMembers ps k).length > 1) :
    (dupRows ps).countP (fun r => (r.name, r.date_of_birth) == k) = 1
    ∧ dupRowOf ps k ∈ dupRows ps
    ∧ (dupRowOf ps k).duplicate_count = (dupMembers ps k).length
    ∧ (dupRowOf ps k).patient_ids = (dupMembers ps k).map (fun p => p.patient_id)
    ∧ (dupFinding (dupRowOf ps k)).issue_description
      = "Duplicate patients found: "
        ++ String.intercalate ", " ((dupMembers ps k).map (fun p => p.patient_id))
    ∧ (dupRows ps).length
      = (dupKeys ps).countP (fun k2 => decide ((dupMembers ps k2).length > 1))
    ∧ ((dupRows ps).map (fun r => r.duplicate_count)).sum
      = (((dupKeys ps).filter (fun k2 => decide ((dupMembers ps k2).length > 1))).map
          (fun k2 => (dupMembers ps k2).length)).sum := by
  have hk : k ∈ dupKeys ps := by
    apply (mem_dupKeys ps k).mpr
    intro hnil
    rw [hnil] at hlen
    exact absurd hlen (by decide)
  have hperm : (dupRows ps).Perm (dupRowsUnsorted ps) :=
    List.perm_insertionSort _ _
  refine ⟨?_, ?_, rfl, rfl, rfl, ?_, ?_⟩
  · rw [hperm.countP_eq, dupRowsUnsorted_eq, List.countP_map]
    have hcong : ((fun r : DupRow => (r.name, r.date_of_birth) == k) ∘ dupRowOf ps)
        = (fun k2 => k2 == k) := rfl
    rw [hcong]
    exact countP_eq_one_of_nodup_mem _ k ((List.nodup_dedup _).filter _)
      (List.mem_filter.mpr ⟨hk, decide_eq_true hlen⟩)
  · apply (List.mem_insertionSort _).mpr
    rw [dupRowsUnsorted_eq]
    exact List.mem_map.mpr ⟨k, List.mem_filter.mpr ⟨hk, decide_eq_true hlen⟩, rfl⟩
  · rw [hperm.length_eq, dupRowsUnsorted_eq, List.length_map,
      List.countP_eq_length_filter]
  · rw [(hperm.map (fun r => r.duplicate_count)).sum_eq, dupRowsUnsorted_eq,
      List.map_map]
    rfl

/-- Three active records sharing the same name and birth date. -/
def dupA : PatientRecord :=
  { patient_id := "D1", name := some "John", date_of_birth := some 33
    insurance_id := some "i", primary_provider := some "d"
    contact_phone := some "c", contact_email := some "e", is_active := true }

/-- Second member of the group. -/
def dupB : PatientRecord :=
  { patient_id := "D2", name := some "John", date_of_birth := some 33
    insurance_id := some "i", primary_provider := some "d"
    contact_phone := some "c", contact_email := some "e", is_active := true }

/-- Third member of the group. -/
def dupC : PatientRecord :=
  { patient_id := "D3", name := some "John", date_of_birth := some 33
    insurance_id := some "i", primary_provider := some "d"
    contact_phone := some "c", contact_email := some "e", is_active := true }

/-- The shared group key. -/
def dupKeyJ : Option String × Option Int := (some "John", some 33)

/-- Witness for C8: three records sharing name and birth date produce one
row with `duplicate_count = 3` listing all three ids. -/
theorem C8_duplicate_grouping_witness :
    (dupMembers [dupA, dupB, dupC] dupKeyJ).length = 3
    ∧ (dupRows [dupA, dupB, dupC]).countP
        (fun r => (r.name, r.date_of_birth) == dupKeyJ) = 1
    ∧ (dupRowOf [dupA, dupB, dupC] dupKeyJ).duplicate_count = 3
    ∧ (dupRowOf [dupA, dupB, dupC] dupKeyJ).patient_ids = ["D1", "D2", "D3"]
    ∧ (dupFinding (dupRowOf [dupA, dupB, dupC] dupKeyJ)).issue_description
      = "Duplicate patients found: D1, D2, D3" := by
  have h := C8_duplicate_grouping [dupA, dupB, dupC] dupKeyJ (by decide)
  exact ⟨by decide, h.1, by decide, by decide, by decide⟩

/-- C10: a record whose name or birth date is null is excluded by the
duplicate query's `WHERE` clause, so it belongs to no group; every id listed
in any duplicate row belongs to an active record with non-null name and
birth date. -/
theorem C10_null_keys_excluded (ps : List PatientRecord) (p : PatientRecord)
    (hp : p ∈ ps) (hnull : p.name = none ∨ p.date_of_birth = none) :
    (∀ k, p ∉ dupMembers ps k)
    ∧ (∀ r, r ∈ dupRows ps → ∀ i, i ∈ r.patient_ids →
        ∃ q, q ∈ ps ∧ q.is_active = true ∧ q.name ≠ none
          ∧ q.date_of_birth ≠ none ∧ q.patient_id = i) := by
  constructor
  · intro k hmem
    have hpe : p ∈ dupEligible ps := (List.mem_filter.mp hmem).1
    have hflag := (List.mem_filter.mp hpe).2
    rcases hnull with hn | hd
    · simp [hn] at hflag
    · simp [hd] at hflag
  · intro r hr i hi
    have hr2 : r ∈ dupRowsUnsorted ps := (List.mem_insertionSort _).mp hr
    rw [dupRowsUnsorted_eq] at hr2
    rcases List.mem_map.mp hr2 with ⟨k2, _, hk2r⟩
    rw [← hk2r] at hi
    rcases List.mem_map.mp hi with ⟨q, hq, hqi⟩
    have hqe : q ∈ dupEligible ps := (List.mem_filter.mp hq).1
    rcases List.mem_filter.mp hqe with ⟨hqs, hqflag⟩
    have hq3 : (q.name.isSome && q.date_of_birth.isSome && q.is_active) = true := hqflag
    have hqn : q.name.isSome = true := by
      rcases (Bool.and_eq_true _ _).mp hq3 with ⟨hab, _⟩
      exact ((Bool.and_eq_true _ _).mp hab).1
    have hqd : q.date_of_birth.isSome = true := by
      rcases (Bool.and_eq_true _ _).mp hq3 with ⟨hab, _⟩
      exact ((Bool.and_eq_true _ _).mp hab).2
    have hqa : q.is_active = true := ((Bool.and_eq_true _ _).mp hq3).2
    exact ⟨q, hqs, hqa, Option.isSome_iff_ne_none.mp hqn,
      Option.isSome_iff_ne_none.mp hqd, hqi⟩

/-- A record with a null name. -/
def patNull1 : PatientRecord :=
  { patient_id := "N1", name := none, date_of_birth := some 7
    insurance_id := some "i", primary_provider := some "d"
    contact_phone := some "c", contact_email := some "e", is_active := true }

/-- A second record with a null name and the same remaining values. -/
def patNull2 : PatientRecord :=
  { patient_id := "N2", name := none, date_of_birth := some 7
    insurance_id := some "i", primary_provider := some "d"
    contact_phone := some "c", contact_email := some "e", is_active := true }

/-- Witness for C10: two active null-named records sharing every other value
join no group and produce no duplicate rows at all. -/
theorem C10_null_keys_excluded_witness :
    patNull1 ∉ dupMembers [patNull1, patNull2] (none, some 7)
    ∧ dupRows [patNull1, patNull2] = [] :=
  ⟨(C10_null_keys_excluded [patNull1, patNull2] patNull1
      (by decide) (Or.inl rfl)).1 (none, some 7),
   by decide⟩
